import Mathlib

/-!
Shallow embedding of the `harmonic-analysis` repository:
`src/Tides/Tides.py` (class `Tide`, class `LatLon`) and
`src/util/coordinate_transforms.py` (`ll2xy`, `xy2ll`).

Numeric scalars (Python floats) are idealised as `ℚ`; complex values
(numpy complex) as pairs `ℚ × ℚ`.  The external libraries the source
delegates to (pyTMD, timescale, numpy's `exp`/`pi`, pyproj) are modelled
as an abstract record of functions `ExtLib` (resp. `ProjLib`): the
repository code never inspects their results, it only routes data
between them, so every claim about the repository is stated for an
arbitrary library record, with the library's documented contracts
(output shapes, inverse transforms) as explicit hypotheses where a claim
needs them.
-/

/-- Complex value, real and imaginary part, modelling a numpy complex float. -/
abbrev Cplx := ℚ × ℚ

/-- Scalar times complex, modelling `amp * z` in numpy. -/
def cscale (a : ℚ) (z : Cplx) : Cplx := (a * z.1, a * z.2)

/-- A Python `datetime.datetime` value.  `tidal_elevation` reads only the
`year`, `month`, `day`, `hour` and `minute` attributes; `second` and
`microsecond` exist on the object but are never read by the source. -/
structure DateTime where
  year : Int
  month : Nat
  day : Nat
  hour : Nat
  minute : Nat
  second : Nat
  microsecond : Nat
deriving DecidableEq, Repr

/-- Class `LatLon` (Tides.py lines 219-223): a bare container holding the
`lat` and `lon` values used as location-pair labels of the output array. -/
structure LatLon where
  lat : ℚ
  lon : ℚ
deriving DecidableEq, Repr

/-- The model object returned by
`pyTMD.io.model(model_loc, format="netcdf").elevation(model)`: the
repository reads its `grid_file`, `model_file`, `projection`, `type` and
`format` attributes and passes them on to other pyTMD calls. -/
structure ModelDef where
  grid_file : String
  model_file : String
  projection : String
  type : String
  format : String
deriving DecidableEq, Repr

/-- The constants object returned by `pyTMD.io.OTIS.read_constants`: the
repository reads its `fields` attribute (the constituent names of the
model, in model order) and passes the object to `interpolate_constants`. -/
structure Constituents where
  fields : List String
deriving DecidableEq, Repr

/-- The external library surface used by `Tide.tidal_elevation`:
timescale's calendar conversion, pyTMD's model loading, constant reading
and interpolation, numpy's `pi` and complex `exp`, and pyTMD's three
prediction routines.  `interpolate_constants` returns the triple
`(amp, ph, D)` with one row per queried location; `predict_map` returns
one value per location (row of `hc`); `predict_time_series` and the two
`infer_minor` entries return per the pyTMD shape contract recorded in
`ShapeContract`. -/
structure ExtLib where
  convert_calendar_dates : Int → Nat → Nat → Nat → Nat → ℚ
  model_elevation : String → String → ModelDef
  read_constants : String → String → String → String → String → Constituents
  interpolate_constants : List ℚ → List ℚ → Constituents → String →
    List (List ℚ) × List (List ℚ) × List ℚ
  pi : ℚ
  cexp : Cplx → Cplx
  predict_map : ℚ → List (List Cplx) → List String → ℚ → String → List ℚ
  predict_time_series : List ℚ → List (List Cplx) → List String → List ℚ → String → List ℚ
  infer_minor_at : ℚ → List (List Cplx) → List String → ℚ → String → List ℚ
  infer_minor_series : List ℚ → List (List Cplx) → List String → List ℚ → String → List ℚ

/-- The documented output-shape contract of the delegated pyTMD routines:
interpolation yields one amplitude row and one phase row per queried
location; `predict.map` and `infer_minor` at a single time yield one
value per location; `predict.time_series` and `infer_minor` over a time
sequence yield one value per time. -/
structure ShapeContract (lib : ExtLib) : Prop where
  interp_amp_len : ∀ lons lats co ty,
    (lib.interpolate_constants lons lats co ty).1.length = lons.length
  interp_ph_len : ∀ lons lats co ty,
    (lib.interpolate_constants lons lats co ty).2.1.length = lons.length
  predict_map_len : ∀ t hc c d fmt, (lib.predict_map t hc c d fmt).length = hc.length
  infer_minor_at_len : ∀ t hc c d fmt, (lib.infer_minor_at t hc c d fmt).length = hc.length
  predict_ts_len : ∀ ts hc c ds fmt, (lib.predict_time_series ts hc c ds fmt).length = ts.length
  infer_minor_series_len : ∀ ts hc c ds fmt,
    (lib.infer_minor_series ts hc c ds fmt).length = ts.length

/-- Observable steps of one `tidal_elevation` call, in source order:
the calendar conversion, the two model-I/O steps (opening the model
definition and reading the grid/constituent files), the interpolation,
the `print(c)` diagnostic, and the prediction calls.  `raiseInputShape`
is the input-shape-validation failure the specification postulates; the
source contains no such check, so no run ever emits it. -/
inductive Event where
  | convertDates : Event
  | modelElevation : Event
  | readConstants : Event
  | interpolateConstants : Event
  | printC : List String → Event
  | predictMapCall : Nat → Event
  | predictTimeSeriesCall : Event
  | raiseInputShape : Event
deriving DecidableEq, Repr

/-- Which events are model I/O: opening the model definition and reading
the model grid/constituent files. -/
def Event.isModelRead : Event → Bool
  | Event.modelElevation => true
  | Event.readConstants => true
  | _ => false

/-- Class `Tide` (Tides.py lines 32-48): holds the model name and the
location of the model file, set by `__init__`. -/
structure Tide where
  model : String
  model_loc : String
deriving DecidableEq, Repr

/-- The output `xarray.DataArray` (Tides.py lines 133-142): dimensions
`("t", "lat_lon")`, coordinates the input datetimes and the `LatLon`
labels, the data grid, and the `description` / `units` attributes. -/
structure DataArray where
  t : List DateTime
  lat_lon : List LatLon
  data : List (List ℚ)
  description : String
  units : String
deriving DecidableEq, Repr

/-- One full run of `tidal_elevation`: its observable event trace, the
constituent-name list and harmonic-coefficient array actually passed to
the prediction step (the `c` and `hc` arguments of the `pyTMD.predict`
calls at lines 122-124 and 127-129), and the returned `DataArray`. -/
structure TideRun where
  trace : List Event
  cPassed : List String
  hcPassed : List (List Cplx)
  result : DataArray
deriving DecidableEq, Repr

/-- Tides.py lines 75-85: the tide times, one per datetime, converted
from the year, month, day, hour and minute components only. -/
def tideTimeOf (lib : ExtLib) (datetimes : List DateTime) : List ℚ :=
  datetimes.map (fun d => lib.convert_calendar_dates d.year d.month d.day d.hour d.minute)

/-- Tides.py line 89: `pyTMD.io.model(self.model_loc, format="netcdf").elevation(self.model)`. -/
def Tide.modelOf (lib : ExtLib) (self : Tide) : ModelDef :=
  lib.model_elevation self.model_loc self.model

/-- Tides.py lines 90-96: `pyTMD.io.OTIS.read_constants(...)`. -/
def Tide.constituentsOf (lib : ExtLib) (self : Tide) : Constituents :=
  lib.read_constants (Tide.modelOf lib self).grid_file (Tide.modelOf lib self).model_file
    (Tide.modelOf lib self).projection (Tide.modelOf lib self).type
    (Tide.modelOf lib self).format

/-- Tides.py line 97: `c = constituents.fields`. -/
def Tide.fieldsOf (lib : ExtLib) (self : Tide) : List String :=
  (Tide.constituentsOf lib self).fields

/-- Tides.py lines 100-108: `amp, ph, D = pyTMD.io.OTIS.interpolate_constants(...)`. -/
def Tide.ampPhOf (lib : ExtLib) (self : Tide) (lons lats : List ℚ) :
    List (List ℚ) × List (List ℚ) × List ℚ :=
  lib.interpolate_constants lons lats (Tide.constituentsOf lib self)
    (Tide.modelOf lib self).type

/-- Tides.py lines 111-112 for one entry: `cph = -1j*ph*pi/180.0` and
`hc = amp*exp(cph)`, with `exp` and `pi` delegated to numpy. -/
def hcEntry (lib : ExtLib) (a p : ℚ) : Cplx :=
  cscale a (lib.cexp (0, -(p * lib.pi / 180)))

/-- Tides.py lines 111-112, elementwise over the `(n_points, n_constituents)`
amplitude and phase matrices. -/
def Tide.hcOf (lib : ExtLib) (self : Tide) (lons lats : List ℚ) : List (List Cplx) :=
  List.zipWith (fun arow prow => List.zipWith (hcEntry lib) arow prow)
    (Tide.ampPhOf lib self lons lats).1 (Tide.ampPhOf lib self lons lats).2.1

/-- Tides.py lines 115-117: when a constituent subset is requested the
name list `c` is culled with `c[np.isin(c, consts)]` — the elements of
`c` that occur in `consts`, kept in the order of `c`. -/
def culledC (c : List String) (consts : Option (List String)) : List String :=
  match consts with
  | none => c
  | some L => c.filter (fun nm => L.contains nm)

/-- Static method `Tide.tidal_elevation_map` (Tides.py lines 146-181):
`pyTMD.predict.map` at one time, plus `pyTMD.predict.infer_minor` when
`consts is None`, then the metre-to-centimetre conversion `*= 100`. -/
def Tide.tidal_elevation_map (lib : ExtLib) (tide_time : ℚ) (hc : List (List Cplx))
    (c : List String) (delat : ℚ) (model : ModelDef)
    (consts : Option (List String)) : List ℚ :=
  let TIDE := lib.predict_map tide_time hc c delat model.format
  let TIDE := match consts with
    | none => List.zipWith (· + ·) TIDE (lib.infer_minor_at tide_time hc c delat model.format)
    | some _ => TIDE
  TIDE.map (fun v => v * 100)

/-- Static method `Tide.tidal_elevation_time_series` (Tides.py lines
183-216): `pyTMD.predict.time_series` over all times, plus
`pyTMD.predict.infer_minor` when `consts is None`, then `*= 100`. -/
def Tide.tidal_elevation_time_series (lib : ExtLib) (tide_time : List ℚ)
    (hc : List (List Cplx)) (c : List String) (delat : List ℚ) (model : ModelDef)
    (consts : Option (List String)) : List ℚ :=
  let TIDE := lib.predict_time_series tide_time hc c delat model.format
  let TIDE := match consts with
    | none => List.zipWith (· + ·) TIDE
        (lib.infer_minor_series tide_time hc c delat model.format)
    | some _ => TIDE
  TIDE.map (fun v => v * 100)

/-- Tides.py lines 119-130: the data grid of one run.  `DELTAT` is
`np.zeros_like(tide_time)` (line 99).  When `len(lons) > 1` the map path
is taken once per timestamp (`tide_time` has one entry per datetime, so
ranging over its length is ranging over `range(len(datetimes))`);
otherwise the time-series path is taken once and the resulting row is
turned into a column by `np.atleast_2d(...).T.tolist()`. -/
def Tide.dataOf (lib : ExtLib) (self : Tide) (lons lats : List ℚ)
    (consts : Option (List String)) (tide_time : List ℚ) : List (List ℚ) :=
  let hc := Tide.hcOf lib self lons lats
  let c := culledC (Tide.fieldsOf lib self) consts
  let DELTAT := tide_time.map (fun _ => (0 : ℚ))
  let model := Tide.modelOf lib self
  if lons.length > 1 then
    (List.range tide_time.length).map (fun i =>
      Tide.tidal_elevation_map lib (tide_time.getD i 0) hc c (DELTAT.getD i 0) model consts)
  else
    (Tide.tidal_elevation_time_series lib tide_time hc c DELTAT model consts).map
      (fun v => [v])

/-- The event trace of one run, in source order: calendar conversion
(lines 75-85), model-definition open (line 89), constituent read (lines
90-96), interpolation (lines 100-108), the `print(c)` diagnostic (line
118), then one prediction call per timestamp on the map path or a single
time-series call (lines 119-130).  No input-shape validation exists
anywhere in the source, so `raiseInputShape` is never emitted. -/
def Tide.traceOf (lons : List ℚ) (nt : Nat) (c : List String) : List Event :=
  [Event.convertDates, Event.modelElevation, Event.readConstants,
   Event.interpolateConstants, Event.printC c] ++
  (if lons.length > 1 then (List.range nt).map Event.predictMapCall
   else [Event.predictTimeSeriesCall])

/-- Method `Tide.tidal_elevation` (Tides.py lines 50-144).  The run
records the observable trace, the `(c, hc)` pair handed to the
prediction step, and the assembled `xarray.DataArray`: coordinates
`t = datetimes` and `lat_lon = [LatLon(lat, lon) for lat, lon in
zip(lats, lons)]` (line 133), the data grid, and the attributes
`description="Tide Height"`, `units="cm"` (lines 134-142).  This is the
success-path model; the two delegated failure points of the call (the
projection library's mismatched-length rejection inside
`interpolate_constants` and the `xarray.DataArray` size validation) are
carried by the refinement `Tide.tidal_elevationE` below, which
coincides with this function wherever the program succeeds
(`tidal_elevationE_agrees`). -/
def Tide.tidal_elevation (lib : ExtLib) (self : Tide) (lons lats : List ℚ)
    (datetimes : List DateTime) (consts : Option (List String)) : TideRun :=
  let tide_time := tideTimeOf lib datetimes
  let c := culledC (Tide.fieldsOf lib self) consts
  { trace := Tide.traceOf lons datetimes.length c
    cPassed := c
    hcPassed := Tide.hcOf lib self lons lats
    result :=
      { t := datetimes
        lat_lon := List.zipWith (fun lat lon => LatLon.mk lat lon) lats lons
        data := Tide.dataOf lib self lons lats consts tide_time
        description := "Tide Height"
        units := "cm" } }

/-- State-passing embedding of one Python method call
`self.tidal_elevation(...)`: the second component is the instance state
after the call.  The method body (Tides.py lines 50-144) contains no
assignment to any attribute of `self`, so the post-state is the instance
exactly as received. -/
def Tide.tidal_elevation_call (lib : ExtLib) (self : Tide) (lons lats : List ℚ)
    (datetimes : List DateTime) (consts : Option (List String)) : TideRun × Tide :=
  (Tide.tidal_elevation lib self lons lats datetimes consts, self)

/-- The pyproj surface used by `coordinate_transforms.py`: the
`Transformer.from_crs(src, dst, always_xy=True).transform` call, keyed
by the source and destination CRS code strings; `always_xy=True` fixes
the axis order to (east/lon, north/lat) in both directions, which the
pair encoding reflects. -/
structure ProjLib where
  transform : String → String → ℚ × ℚ → ℚ × ℚ

/-- Function `ll2xy` (coordinate_transforms.py lines 12-37): the forward
transform from EPSG:4326 geodetic coordinates to EPSG:3031 Antarctic
Polar Stereographic coordinates. -/
def ll2xy (P : ProjLib) (lon lat : ℚ) : ℚ × ℚ :=
  P.transform "EPSG:4326" "EPSG:3031" (lon, lat)

/-- Function `xy2ll` (coordinate_transforms.py lines 40-64): the inverse
transform from EPSG:3031 coordinates back to EPSG:4326 geodetic
coordinates. -/
def xy2ll (P : ProjLib) (x y : ℚ) : ℚ × ℚ :=
  P.transform "EPSG:3031" "EPSG:4326" (x, y)

/-!  Concrete library instantiations used by witnesses and by the
counterexample evaluations.  `libW` is an arbitrary small computable
stand-in for the external libraries; its only purposes are to satisfy
the shape contracts and to make the embedded functions evaluable on
concrete inputs. -/

/-- A concrete computable stand-in for the external library surface,
with four constituents named in the model order `m2, s2, k1, o1` and
interpolated amplitudes `x+1, x+2, x+3, x+4` at longitude `x`, so the
four harmonic coefficients at a location are pairwise distinct. -/
def libW : ExtLib where
  convert_calendar_dates := fun y mo d h mi =>
    (y : ℚ) * 1000 + mo * 50 + d + (h : ℚ) / 24 + (mi : ℚ) / 1440
  model_elevation := fun loc m =>
    { grid_file := loc ++ "/grid", model_file := loc ++ "/" ++ m,
      projection := "PSouth", type := "z", format := "OTIS" }
  read_constants := fun _ _ _ _ _ => { fields := ["m2", "s2", "k1", "o1"] }
  interpolate_constants := fun lons _ _ _ =>
    (lons.map (fun x => [x + 1, x + 2, x + 3, x + 4]),
     lons.map (fun _ => [0, 0, 0, 0]),
     lons.map (fun _ => 100))
  pi := 157 / 50
  cexp := fun z => (1 + z.2, z.2)
  predict_map := fun t hc _ _ _ => hc.map (fun row => t + row.length)
  predict_time_series := fun ts hc _ _ _ => ts.map (fun t => t + hc.length)
  infer_minor_at := fun t hc _ _ _ => hc.map (fun _ => t / 7 + 1)
  infer_minor_series := fun ts hc _ _ _ => ts.map (fun t => t / 9 + hc.length + 1)

/-- A degenerate stand-in whose map-path and time-series-path prediction
routines agree on singleton inputs. -/
def libD : ExtLib where
  convert_calendar_dates := fun _ _ _ _ _ => 0
  model_elevation := fun _ _ =>
    { grid_file := "g", model_file := "m", projection := "PSouth",
      type := "z", format := "OTIS" }
  read_constants := fun _ _ _ _ _ => { fields := ["m2"] }
  interpolate_constants := fun lons _ _ _ =>
    (lons.map (fun _ => [1]), lons.map (fun _ => [0]), lons.map (fun _ => 0))
  pi := 157 / 50
  cexp := fun z => (1 + z.2, z.2)
  predict_map := fun _ _ _ _ _ => [7]
  predict_time_series := fun _ _ _ _ _ => [7]
  infer_minor_at := fun _ _ _ _ _ => [1]
  infer_minor_series := fun _ _ _ _ _ => [1]

/-- The shape contracts hold for `libW`. -/
theorem libW_shapes : ShapeContract libW := by
  constructor <;> intros <;> simp [libW]

/-- A sample instance: the CATS2008 model in some directory. -/
def tideW : Tide := { model := "CATS2008", model_loc := "model_dir" }

/-- A sample timestamp, 2020-01-01T00:00:00. -/
def dtW : DateTime :=
  { year := 2020, month := 1, day := 1, hour := 0, minute := 0,
    second := 0, microsecond := 0 }

/-- A concrete pyproj stand-in for which the forward and inverse
transforms between the two CRS codes are mutually inverse. -/
def projW : ProjLib := { transform := fun _ _ p => p }

/-- Looking up a constant-zero list at any index yields zero. -/
theorem getD_map_zero (l : List ℚ) (i : Nat) :
    (l.map (fun _ => (0 : ℚ))).getD i 0 = 0 := by
  induction l generalizing i with
  | nil => simp [List.getD]
  | cons a as ih =>
    cases i with
    | zero => simp [List.getD]
    | succ j => simpa [List.getD] using ih j

/-- C10: `tidal_elevation` never mutates the `Tide` instance it is
called on: for every call, the post-call instance state is the instance
as received, so the `model` and `model_loc` fields set at construction
are unchanged and no other state is retained on the instance. -/
theorem tidal_elevation_preserves_instance (lib : ExtLib) (self : Tide)
    (lons lats : List ℚ) (datetimes : List DateTime) (consts : Option (List String)) :
    (Tide.tidal_elevation_call lib self lons lats datetimes consts).2 = self ∧
    (Tide.tidal_elevation_call lib self lons lats datetimes consts).2.model = self.model ∧
    (Tide.tidal_elevation_call lib self lons lats datetimes consts).2.model_loc
      = self.model_loc :=
  ⟨rfl, rfl, rfl⟩

/-- C8: composing the forward transform `ll2xy` with the inverse
transform `xy2ll` recovers the original (lon, lat), given the underlying
projection library's round-trip contract for the EPSG:4326 / EPSG:3031
pair (the tolerance of the floating-point library is idealised as exact
arithmetic over `ℚ`).  The content verified here is the repository's
wiring: `xy2ll` applies the transform of exactly the reversed CRS pair
of `ll2xy`, with the same fixed axis order. -/
theorem ll2xy_xy2ll_roundtrip (P : ProjLib)
    (hinv : ∀ p : ℚ × ℚ,
      P.transform "EPSG:3031" "EPSG:4326" (P.transform "EPSG:4326" "EPSG:3031" p) = p)
    (lon lat : ℚ) :
    xy2ll P (ll2xy P lon lat).1 (ll2xy P lon lat).2 = (lon, lat) := by
  simpa [ll2xy, xy2ll] using hinv (lon, lat)

/-- Witness for C8 at the sample point (lon, lat) = (-70, -75) with a
transform pair satisfying the round-trip contract. -/
theorem ll2xy_xy2ll_roundtrip_witness :
    (projW.transform "EPSG:3031" "EPSG:4326"
        (projW.transform "EPSG:4326" "EPSG:3031" ((-70 : ℚ), (-75 : ℚ)))
      = ((-70 : ℚ), (-75 : ℚ))) ∧
    xy2ll projW (ll2xy projW (-70) (-75)).1 (ll2xy projW (-70) (-75)).2
      = ((-70 : ℚ), (-75 : ℚ)) :=
  ⟨rfl, ll2xy_xy2ll_roundtrip projW (fun _ => rfl) (-70) (-75)⟩

/-- C7: the prediction strategy is selected by location count alone: for
more than one location the data grid is built by iterating over the
timestamps and predicting across all locations for each (the map path);
for at most one location all timestamps are predicted in one
time-series call, whose result is transposed into a column.  The
selection does not depend on the number of timestamps. -/
theorem branch_selection_by_location_count (lib : ExtLib) (self : Tide)
    (lons lats : List ℚ) (datetimes : List DateTime) (consts : Option (List String)) :
    (Tide.tidal_elevation lib self lons lats datetimes consts).result.data =
      if lons.length > 1 then
        (List.range datetimes.length).map (fun i =>
          Tide.tidal_elevation_map lib ((tideTimeOf lib datetimes).getD i 0)
            (Tide.hcOf lib self lons lats) (culledC (Tide.fieldsOf lib self) consts)
            0 (Tide.modelOf lib self) consts)
      else
        (Tide.tidal_elevation_time_series lib (tideTimeOf lib datetimes)
          (Tide.hcOf lib self lons lats) (culledC (Tide.fieldsOf lib self) consts)
          ((tideTimeOf lib datetimes).map (fun _ => 0)) (Tide.modelOf lib self)
          consts).map (fun v => [v]) := by
  show Tide.dataOf lib self lons lats consts (tideTimeOf lib datetimes) = _
  unfold Tide.dataOf
  split
  · have hn : (tideTimeOf lib datetimes).length = datetimes.length := List.length_map _ _
    rw [hn]
    exact List.map_congr_left (fun i _ => by rw [getD_map_zero])
  · rfl

/-- C6: the output's time-axis labels are the input datetimes in input
order, and the output's location-pair-axis labels are the input
(lat, lon) value pairs in input order. -/
theorem output_labels_match_inputs (lib : ExtLib) (self : Tide)
    (lons lats : List ℚ) (datetimes : List DateTime) (consts : Option (List String))
    (hlen : lons.length = lats.length) :
    (Tide.tidal_elevation lib self lons lats datetimes consts).result.t = datetimes ∧
    (Tide.tidal_elevation lib self lons lats datetimes consts).result.lat_lon
      = List.zipWith LatLon.mk lats lons ∧
    ((Tide.tidal_elevation lib self lons lats datetimes consts).result.lat_lon).map
        (fun p => (p.lat, p.lon))
      = lats.zip lons := by
  refine ⟨rfl, rfl, ?_⟩
  show (List.zipWith (fun lat lon => LatLon.mk lat lon) lats lons).map _ = _
  clear hlen
  induction lats generalizing lons with
  | nil => simp
  | cons a as ih =>
    cases lons with
    | nil => simp
    | cons b bs => simp [ih]

/-- Witness for C6 at a concrete equal-length input. -/
theorem output_labels_match_inputs_witness :
    ([(-70 : ℚ)].length = [(-75 : ℚ)].length) ∧
    ((Tide.tidal_elevation libW tideW [-70] [-75] [dtW] none).result.t = [dtW] ∧
     (Tide.tidal_elevation libW tideW [-70] [-75] [dtW] none).result.lat_lon
       = List.zipWith LatLon.mk [-75] [-70] ∧
     ((Tide.tidal_elevation libW tideW [-70] [-75] [dtW] none).result.lat_lon).map
         (fun p => (p.lat, p.lon))
       = [(-75 : ℚ)].zip [(-70 : ℚ)]) :=
  ⟨rfl, output_labels_match_inputs libW tideW [-70] [-75] [dtW] none rfl⟩

/-- The behaviour C2 postulates: an input-shape error raised before the
first model-I/O step of the trace. -/
def raisesShapeBeforeModelRead (tr : List Event) : Prop :=
  Event.raiseInputShape ∈ tr.takeWhile (fun e => !e.isModelRead)

/-- Errors the delegated libraries raise during a `tidal_elevation`
call.  `projMismatch` is the projection library's rejection of
coordinate arrays of different sizes, raised inside
`pyTMD.io.OTIS.interpolate_constants`, which hands `np.atleast_1d(lons)`
and `np.atleast_1d(lats)` to the projection transform (Tides.py lines
100-108).  `dataArrayMismatch` is the `xarray.DataArray` constructor's
conflicting-sizes rejection when a coordinate's length does not match
the data shape (lines 134-142). -/
inductive TideError where
  | projMismatch : TideError
  | dataArrayMismatch : TideError
deriving DecidableEq, Repr

/-- Error-aware run of `Tide.tidal_elevation` (Tides.py lines 50-144),
refining `Tide.tidal_elevation` with the two delegated failure points
of the call.  In source order: the calendar conversion and the two
model-I/O steps happen unconditionally; then the interpolation step
fails with the projection library's mismatch error exactly when `lons`
and `lats` differ in length (the repository performs no length check of
its own); on the success path the run proceeds as in
`Tide.tidal_elevation`, and finally the `xarray.DataArray` constructor
accepts the grid only when the data shape matches both coordinate
lengths.  Returns the event trace up to the failure point together with
the result or the delegated error; no partial result accompanies an
error. -/
def Tide.tidal_elevationE (lib : ExtLib) (self : Tide) (lons lats : List ℚ)
    (datetimes : List DateTime) (consts : Option (List String)) :
    List Event × Except TideError DataArray :=
  if lons.length ≠ lats.length then
    ([Event.convertDates, Event.modelElevation, Event.readConstants,
      Event.interpolateConstants], Except.error TideError.projMismatch)
  else
    let run := Tide.tidal_elevation lib self lons lats datetimes consts
    if run.result.data.length == run.result.t.length
        && run.result.data.all (fun row => row.length == run.result.lat_lon.length) then
      (run.trace, Except.ok run.result)
    else
      (run.trace, Except.error TideError.dataArrayMismatch)

/-- Counterexample to C2: at the concrete mismatched input
`lons = [0, 1]`, `lats = [0]`, one timestamp, no input-shape error is
raised before model I/O — indeed no input-shape error is raised at all:
both model-I/O steps complete first, and the call then fails inside the
delegated interpolation step, after model I/O. -/
theorem no_shape_check_before_model_read_cex :
    ¬ raisesShapeBeforeModelRead
        (Tide.tidal_elevationE libW tideW [0, 1] [0] [dtW] none).1 ∧
    Event.raiseInputShape ∉ (Tide.tidal_elevationE libW tideW [0, 1] [0] [dtW] none).1 ∧
    Event.modelElevation ∈ (Tide.tidal_elevationE libW tideW [0, 1] [0] [dtW] none).1 ∧
    Event.readConstants ∈ (Tide.tidal_elevationE libW tideW [0, 1] [0] [dtW] none).1 ∧
    (Tide.tidal_elevationE libW tideW [0, 1] [0] [dtW] none).2
      = Except.error TideError.projMismatch := by
  unfold raisesShapeBeforeModelRead Tide.tidal_elevationE
  refine ⟨by decide, by decide, by decide, by decide, rfl⟩

/-- C2 amended: `tidal_elevation` performs no length validation of its
own, so no input-shape error is ever raised.  For every call with
mismatched `lons` / `lats` lengths, the trace is exactly the calendar
conversion, the two model-I/O steps and the entry into the delegated
interpolation step, where the projection library rejects the
mismatched-length coordinate arrays — after model I/O — and the call
fails, returning no result. -/
theorem mismatched_lengths_fail_after_model_read (lib : ExtLib) (self : Tide)
    (lons lats : List ℚ) (datetimes : List DateTime) (consts : Option (List String))
    (hmis : lons.length ≠ lats.length) :
    (Tide.tidal_elevationE lib self lons lats datetimes consts).1
      = [Event.convertDates, Event.modelElevation, Event.readConstants,
         Event.interpolateConstants] ∧
    Event.raiseInputShape ∉ (Tide.tidal_elevationE lib self lons lats datetimes consts).1 ∧
    (Tide.tidal_elevationE lib self lons lats datetimes consts).2
      = Except.error TideError.projMismatch := by
  unfold Tide.tidal_elevationE
  rw [if_pos hmis]
  refine ⟨rfl, by simp, rfl⟩

/-- Witness for the amended C2 at the concrete mismatched input. -/
theorem mismatched_lengths_fail_after_model_read_witness :
    ([(0 : ℚ), 1].length ≠ [(0 : ℚ)].length) ∧
    ((Tide.tidal_elevationE libW tideW [0, 1] [0] [dtW] none).1
       = [Event.convertDates, Event.modelElevation, Event.readConstants,
          Event.interpolateConstants] ∧
     Event.raiseInputShape ∉ (Tide.tidal_elevationE libW tideW [0, 1] [0] [dtW] none).1 ∧
     (Tide.tidal_elevationE libW tideW [0, 1] [0] [dtW] none).2
       = Except.error TideError.projMismatch) :=
  ⟨by decide,
   mismatched_lengths_fail_after_model_read libW tideW [0, 1] [0] [dtW] none (by decide)⟩

/-- Specification-side culling for C1 ("restrict the harmonic-constant
list to the named subset, preserving each constituent's interpolated
value"): keep exactly the positions whose constituent name is in the
requested subset, culling the name list and every location's
coefficient row in step, so that names and coefficients stay aligned. -/
def specCulledHc (c : List String) (hc : List (List Cplx)) (L : List String) :
    List (List Cplx) :=
  hc.map (fun row => ((c.zip row).filter (fun p => L.contains p.1)).map (fun p => p.2))

/-- C1 fails on the code: with model constituents `m2, s2, k1, o1`
(interpolated coefficients `(1,0), (2,0), (3,0), (4,0)` under `libW`)
and requested subset `["s2"]`, the name list passed to the prediction
step is culled to `["s2"]` but the coefficient array is passed in full,
so it is not culled in step with the name list.  The prediction
libraries pair names with coefficient columns positionally, hence the
retained constituent `s2` (position 0 of the passed name list) is paired
with column 0 of the passed array — `(1,0)`, the interpolated value of
`m2` — instead of its own interpolated value `(2,0)`. -/
theorem cull_passes_unculled_coefficients :
    (Tide.tidal_elevation libW tideW [0] [0] [dtW] (some ["s2"])).cPassed = ["s2"] ∧
    (Tide.tidal_elevation libW tideW [0] [0] [dtW] (some ["s2"])).hcPassed
      = [[(1, 0), (2, 0), (3, 0), (4, 0)]] ∧
    specCulledHc (Tide.fieldsOf libW tideW) (Tide.hcOf libW tideW [0] [0]) ["s2"]
      = [[(2, 0)]] ∧
    (((Tide.tidal_elevation libW tideW [0] [0] [dtW] (some ["s2"])).hcPassed.getD 0
        []).getD 0 (0, 0)) = (1, 0) ∧
    (Tide.tidal_elevation libW tideW [0] [0] [dtW] (some ["s2"])).hcPassed
      ≠ specCulledHc (Tide.fieldsOf libW tideW) (Tide.hcOf libW tideW [0] [0]) ["s2"] := by
  have hhc : Tide.hcOf libW tideW [0] [0] = [[(1, 0), (2, 0), (3, 0), (4, 0)]] := by
    simp only [Tide.hcOf, Tide.ampPhOf, Tide.constituentsOf, Tide.modelOf,
      libW, tideW, hcEntry, cscale, List.map_cons, List.map_nil,
      List.zipWith_cons_cons, List.zipWith_nil_right]
    norm_num
  have hfields : Tide.fieldsOf libW tideW = ["m2", "s2", "k1", "o1"] := rfl
  refine ⟨rfl, hhc, ?_, ?_, ?_⟩
  · rw [hfields, hhc]
    simp [specCulledHc]
  · show ((Tide.hcOf libW tideW [0] [0]).getD 0 []).getD 0 (0, 0) = (1, 0)
    rw [hhc]
    rfl
  · show Tide.hcOf libW tideW [0] [0] ≠ _
    rw [hfields, hhc]
    simp [specCulledHc]

/-- C4: on a degenerate single-location, single-timestamp input the map
path and the time-series path of the repository produce the same
elevation value.  Both paths apply the identical minor-constituent
correction and metre-to-centimetre conversion; the delegated prediction
routines themselves are external, so their degenerate-case agreement
(pyTMD's `predict.map` at time `t` versus `predict.time_series` on the
singleton `[t]`, and likewise `infer_minor`) enters as the hypothesis,
with the floating-point tolerance idealised as exact `ℚ` arithmetic. -/
theorem map_and_time_series_agree_degenerate (lib : ExtLib) (t : ℚ)
    (hc : List (List Cplx)) (c : List String) (d : ℚ) (model : ModelDef)
    (consts : Option (List String))
    (hmap : lib.predict_map t hc c d model.format
      = lib.predict_time_series [t] hc c [d] model.format)
    (hmin : lib.infer_minor_at t hc c d model.format
      = lib.infer_minor_series [t] hc c [d] model.format) :
    Tide.tidal_elevation_map lib t hc c d model consts
      = Tide.tidal_elevation_time_series lib [t] hc c [d] model consts := by
  unfold Tide.tidal_elevation_map Tide.tidal_elevation_time_series
  cases consts <;> simp only [hmap, hmin]

/-- Witness for C4 with a library whose two prediction routines agree on
the degenerate input. -/
theorem map_and_time_series_agree_degenerate_witness :
    (libD.predict_map 0 [[(1, 0)]] ["m2"] 0 (Tide.modelOf libD tideW).format
      = libD.predict_time_series [0] [[(1, 0)]] ["m2"] [0] (Tide.modelOf libD tideW).format) ∧
    Tide.tidal_elevation_map libD 0 [[(1, 0)]] ["m2"] 0 (Tide.modelOf libD tideW) none
      = Tide.tidal_elevation_time_series libD [0] [[(1, 0)]] ["m2"] [0]
          (Tide.modelOf libD tideW) none :=
  ⟨rfl,
   map_and_time_series_agree_degenerate libD 0 [[(1, 0)]] ["m2"] 0
     (Tide.modelOf libD tideW) none rfl rfl⟩

/-- C9: the numeric data of the result depends on the input timestamps
only through their year, month, day, hour and minute components: two
datetime sequences agreeing componentwise up to the minute yield
identical data grids — seconds and microseconds are silently
discarded. -/
theorem elevation_ignores_seconds (lib : ExtLib) (self : Tide)
    (lons lats : List ℚ) (consts : Option (List String))
    (dts1 dts2 : List DateTime)
    (h : List.Forall₂ (fun a b => a.year = b.year ∧ a.month = b.month ∧
      a.day = b.day ∧ a.hour = b.hour ∧ a.minute = b.minute) dts1 dts2) :
    (Tide.tidal_elevation lib self lons lats dts1 consts).result.data
      = (Tide.tidal_elevation lib self lons lats dts2 consts).result.data := by
  have htt : tideTimeOf lib dts1 = tideTimeOf lib dts2 := by
    induction h with
    | nil => rfl
    | cons hab hrest ih =>
      simp only [tideTimeOf, List.map_cons] at ih ⊢
      rw [hab.1, hab.2.1, hab.2.2.1, hab.2.2.2.1, hab.2.2.2.2, ih]
  show Tide.dataOf lib self lons lats consts (tideTimeOf lib dts1)
    = Tide.dataOf lib self lons lats consts (tideTimeOf lib dts2)
  rw [htt]

/-- Witness for C9: two singleton datetime lists equal up to the minute
but different in seconds and microseconds give identical data. -/
theorem elevation_ignores_seconds_witness :
    (List.Forall₂ (fun a b => a.year = b.year ∧ a.month = b.month ∧
        a.day = b.day ∧ a.hour = b.hour ∧ a.minute = b.minute)
      [dtW] [DateTime.mk 2020 1 1 0 0 30 500]) ∧
    dtW ≠ DateTime.mk 2020 1 1 0 0 30 500 ∧
    (Tide.tidal_elevation libW tideW [0] [0] [dtW] none).result.data
      = (Tide.tidal_elevation libW tideW [0] [0]
          [DateTime.mk 2020 1 1 0 0 30 500] none).result.data :=
  ⟨List.Forall₂.cons ⟨rfl, rfl, rfl, rfl, rfl⟩ List.Forall₂.nil,
   by decide,
   elevation_ignores_seconds libW tideW [0] [0] none [dtW]
     [DateTime.mk 2020 1 1 0 0 30 500]
     (List.Forall₂.cons ⟨rfl, rfl, rfl, rfl, rfl⟩ List.Forall₂.nil)⟩

/-- The metre-level (pre-scaling) values of the map path: the prediction
at one time, plus the minor correction when no subset was requested. -/
def mapMeters (lib : ExtLib) (tide_time : ℚ) (hc : List (List Cplx)) (c : List String)
    (delat : ℚ) (model : ModelDef) (consts : Option (List String)) : List ℚ :=
  match consts with
  | none => List.zipWith (· + ·) (lib.predict_map tide_time hc c delat model.format)
      (lib.infer_minor_at tide_time hc c delat model.format)
  | some _ => lib.predict_map tide_time hc c delat model.format

/-- The metre-level (pre-scaling) values of the time-series path. -/
def seriesMeters (lib : ExtLib) (tide_time : List ℚ) (hc : List (List Cplx))
    (c : List String) (delat : List ℚ) (model : ModelDef)
    (consts : Option (List String)) : List ℚ :=
  match consts with
  | none => List.zipWith (· + ·)
      (lib.predict_time_series tide_time hc c delat model.format)
      (lib.infer_minor_series tide_time hc c delat model.format)
  | some _ => lib.predict_time_series tide_time hc c delat model.format

/-- The metre-level data grid of one run, before the centimetre scaling. -/
def metersGrid (lib : ExtLib) (self : Tide) (lons lats : List ℚ)
    (consts : Option (List String)) (tide_time : List ℚ) : List (List ℚ) :=
  let hc := Tide.hcOf lib self lons lats
  let c := culledC (Tide.fieldsOf lib self) consts
  let DELTAT := tide_time.map (fun _ => (0 : ℚ))
  let model := Tide.modelOf lib self
  if lons.length > 1 then
    (List.range tide_time.length).map (fun i =>
      mapMeters lib (tide_time.getD i 0) hc c (DELTAT.getD i 0) model consts)
  else
    (seriesMeters lib tide_time hc c DELTAT model consts).map (fun v => [v])

/-- The map path is its metre-level value scaled by 100. -/
theorem tidal_elevation_map_eq_meters (lib : ExtLib) (t : ℚ) (hc : List (List Cplx))
    (c : List String) (d : ℚ) (model : ModelDef) (consts : Option (List String)) :
    Tide.tidal_elevation_map lib t hc c d model consts
      = (mapMeters lib t hc c d model consts).map (fun v => v * 100) := by
  cases consts <;> rfl

/-- The time-series path is its metre-level value scaled by 100. -/
theorem tidal_elevation_series_eq_meters (lib : ExtLib) (ts : List ℚ)
    (hc : List (List Cplx)) (c : List String) (ds : List ℚ) (model : ModelDef)
    (consts : Option (List String)) :
    Tide.tidal_elevation_time_series lib ts hc c ds model consts
      = (seriesMeters lib ts hc c ds model consts).map (fun v => v * 100) := by
  cases consts <;> rfl

/-- The data grid is the metre-level grid with every cell scaled by 100. -/
theorem dataOf_eq_metersGrid (lib : ExtLib) (self : Tide) (lons lats : List ℚ)
    (consts : Option (List String)) (tide_time : List ℚ) :
    Tide.dataOf lib self lons lats consts tide_time
      = (metersGrid lib self lons lats consts tide_time).map
          (fun row => row.map (fun v => v * 100)) := by
  unfold Tide.dataOf metersGrid
  dsimp only
  split
  · rw [List.map_map]
    apply List.map_congr_left
    intro i _
    simp only [Function.comp_apply]
    exact tidal_elevation_map_eq_meters lib _ _ _ _ _ _
  · rw [tidal_elevation_series_eq_meters, List.map_map, List.map_map]
    apply List.map_congr_left
    intro v _
    simp [Function.comp]

/-- Under the shape contract, the interpolated coefficient array has one
row per queried location. -/
theorem hcOf_length (lib : ExtLib) (hS : ShapeContract lib) (self : Tide)
    (lons lats : List ℚ) :
    (Tide.hcOf lib self lons lats).length = lons.length := by
  unfold Tide.hcOf Tide.ampPhOf
  rw [List.length_zipWith, hS.interp_amp_len, hS.interp_ph_len, min_self]

/-- Under the shape contract, the map path yields one value per location. -/
theorem mapMeters_length (lib : ExtLib) (hS : ShapeContract lib) (t : ℚ)
    (hc : List (List Cplx)) (c : List String) (d : ℚ) (model : ModelDef)
    (consts : Option (List String)) :
    (mapMeters lib t hc c d model consts).length = hc.length := by
  cases consts <;>
    simp [mapMeters, List.length_zipWith, hS.predict_map_len, hS.infer_minor_at_len,
      min_self]

/-- Under the shape contract, the time-series path yields one value per time. -/
theorem seriesMeters_length (lib : ExtLib) (hS : ShapeContract lib) (ts : List ℚ)
    (hc : List (List Cplx)) (c : List String) (ds : List ℚ) (model : ModelDef)
    (consts : Option (List String)) :
    (seriesMeters lib ts hc c ds model consts).length = ts.length := by
  cases consts <;>
    simp [seriesMeters, List.length_zipWith, hS.predict_ts_len,
      hS.infer_minor_series_len, min_self]

/-- C5: for every successful call (equal-length, non-empty location
lists; delegated routines observing their shape contract) the result
grid has shape (number of timestamps) × (number of location pairs) —
time first — the units attribute is centimetres, and the grid is the
metre-level prediction grid with every cell multiplied by 100. -/
theorem output_shape_and_units (lib : ExtLib) (hS : ShapeContract lib) (self : Tide)
    (lons lats : List ℚ) (datetimes : List DateTime) (consts : Option (List String))
    (hlen : lons.length = lats.length) (hpos : 0 < lons.length) :
    (Tide.tidal_elevation lib self lons lats datetimes consts).result.data.length
      = datetimes.length ∧
    (∀ row ∈ (Tide.tidal_elevation lib self lons lats datetimes consts).result.data,
      row.length = lons.length) ∧
    (Tide.tidal_elevation lib self lons lats datetimes consts).result.units = "cm" ∧
    (Tide.tidal_elevation lib self lons lats datetimes consts).result.data
      = (metersGrid lib self lons lats consts (tideTimeOf lib datetimes)).map
          (fun row => row.map (fun v => v * 100)) := by
  have hdata : (Tide.tidal_elevation lib self lons lats datetimes consts).result.data
      = Tide.dataOf lib self lons lats consts (tideTimeOf lib datetimes) := rfl
  have htt : (tideTimeOf lib datetimes).length = datetimes.length := List.length_map _ _
  refine ⟨?_, ?_, rfl, ?_⟩
  · rw [hdata, dataOf_eq_metersGrid, List.length_map]
    unfold metersGrid
    split
    · rw [List.length_map, List.length_range, htt]
    · rw [List.length_map, seriesMeters_length lib hS, htt]
  · intro row hrow
    rw [hdata] at hrow
    unfold Tide.dataOf at hrow
    revert hrow
    split
    · intro hrow
      simp only [List.mem_map] at hrow
      obtain ⟨i, _, hi⟩ := hrow
      rw [← hi, tidal_elevation_map_eq_meters, List.length_map,
        mapMeters_length lib hS, hcOf_length lib hS]
    · intro hrow
      simp only [List.mem_map] at hrow
      obtain ⟨v, _, hv⟩ := hrow
      have hone : lons.length = 1 := by omega
      rw [← hv, hone]
      rfl
  · rw [hdata]
    exact dataOf_eq_metersGrid lib self lons lats consts (tideTimeOf lib datetimes)

/-- Witness for C5 at a concrete valid single-location input. -/
theorem output_shape_and_units_witness :
    ([(0 : ℚ)].length = [(0 : ℚ)].length) ∧ (0 < [(0 : ℚ)].length) ∧
    (Tide.tidal_elevation libW tideW [0] [0] [dtW] none).result.data.length
      = [dtW].length ∧
    (Tide.tidal_elevation libW tideW [0] [0] [dtW] none).result.units = "cm" :=
  ⟨rfl, by decide,
   (output_shape_and_units libW libW_shapes tideW [0] [0] [dtW] none rfl
     (by decide)).1,
   (output_shape_and_units libW libW_shapes tideW [0] [0] [dtW] none rfl
     (by decide)).2.2.1⟩

/-- The minor-constituent correction grid of one run: the values the
`infer_minor` calls contribute (in metres) on the path the run takes,
arranged like the data grid. -/
def minorGrid (lib : ExtLib) (self : Tide) (lons lats : List ℚ)
    (tide_time : List ℚ) : List (List ℚ) :=
  let hc := Tide.hcOf lib self lons lats
  let c := Tide.fieldsOf lib self
  let DELTAT := tide_time.map (fun _ => (0 : ℚ))
  let model := Tide.modelOf lib self
  if lons.length > 1 then
    (List.range tide_time.length).map (fun i =>
      lib.infer_minor_at (tide_time.getD i 0) hc c (DELTAT.getD i 0) model.format)
  else
    (lib.infer_minor_series tide_time hc c DELTAT model.format).map (fun v => [v])

/-- Adding the scaled correction elementwise and then scaling the base
is the same as scaling first and adding 100 times the correction. -/
theorem row_identity (P M : List ℚ) :
    (List.zipWith (· + ·) P M).map (fun v => v * 100)
      = List.zipWith (fun a b => a + 100 * b) (P.map (fun v => v * 100)) M := by
  induction P generalizing M with
  | nil => simp
  | cons p ps ih =>
    cases M with
    | nil => simp
    | cons m ms =>
      simp only [List.zipWith_cons_cons, List.map_cons]
      rw [ih]
      congr 1
      ring

/-- A row absorbs its scaled correction exactly when every correction
entry is zero. -/
theorem zipWith_add_scaled_eq_self_iff (x m : List ℚ) (hlen : m.length = x.length) :
    List.zipWith (fun a b => a + 100 * b) x m = x ↔ ∀ v ∈ m, v = 0 := by
  induction x generalizing m with
  | nil =>
    cases m with
    | nil => simp
    | cons b bs => simp at hlen
  | cons a as ih =>
    cases m with
    | nil => simp at hlen
    | cons b bs =>
      simp only [List.zipWith_cons_cons, List.cons.injEq, List.forall_mem_cons]
      have hab : a + 100 * b = a ↔ b = 0 := by
        constructor
        · intro hsum; linarith
        · intro hb; rw [hb]; ring
      rw [hab, ih bs (by simpa using hlen)]

/-- A grid absorbs its scaled correction grid exactly when every
correction entry is zero. -/
theorem grid_cancel (X M : List (List ℚ))
    (h : List.Forall₂ (fun x m => m.length = x.length) X M) :
    List.zipWith (List.zipWith (fun a b => a + 100 * b)) X M = X ↔
      ∀ row ∈ M, ∀ v ∈ row, v = 0 := by
  induction h with
  | nil => simp
  | @cons x m X2 M2 hxm hrest ih =>
    simp only [List.zipWith_cons_cons, List.cons.injEq, List.forall_mem_cons,
      zipWith_add_scaled_eq_self_iff x m hxm, ih]

/-- Mapping two row builders over one index list yields rowwise equal
lengths when the builders always agree in length. -/
theorem forall_two_map_same {α : Type} (l : List α) (f g : α → List ℚ)
    (h : ∀ a ∈ l, (g a).length = (f a).length) :
    List.Forall₂ (fun x m => m.length = x.length) (l.map f) (l.map g) := by
  induction l with
  | nil => exact List.Forall₂.nil
  | cons a as ih =>
    exact List.Forall₂.cons (h a (by simp))
      (ih (fun b hb => h b (List.mem_cons_of_mem a hb)))

/-- Mapping two row builders over two lists of equal length yields
rowwise equal lengths when the builders always agree in length. -/
theorem forall_two_map_two {α β : Type} (l1 : List α) (l2 : List β)
    (f : α → List ℚ) (g : β → List ℚ) (hlen : l1.length = l2.length)
    (h : ∀ a b, (g b).length = (f a).length) :
    List.Forall₂ (fun x m => m.length = x.length) (l1.map f) (l2.map g) := by
  induction l1 generalizing l2 with
  | nil =>
    cases l2 with
    | nil => exact List.Forall₂.nil
    | cons b bs => simp at hlen
  | cons a as ih =>
    cases l2 with
    | nil => simp at hlen
    | cons b bs => exact List.Forall₂.cons (h a b) (ih bs (by simpa using hlen))

/-- Under the shape contract, a map-path row has one value per location
row of `hc`. -/
theorem tmap_length (lib : ExtLib) (hS : ShapeContract lib) (t : ℚ)
    (hc : List (List Cplx)) (c : List String) (d : ℚ) (model : ModelDef)
    (consts : Option (List String)) :
    (Tide.tidal_elevation_map lib t hc c d model consts).length = hc.length := by
  rw [tidal_elevation_map_eq_meters, List.length_map, mapMeters_length lib hS]

/-- Under the shape contract, the time-series path has one value per time. -/
theorem tts_length (lib : ExtLib) (hS : ShapeContract lib) (ts : List ℚ)
    (hc : List (List Cplx)) (c : List String) (ds : List ℚ) (model : ModelDef)
    (consts : Option (List String)) :
    (Tide.tidal_elevation_time_series lib ts hc c ds model consts).length = ts.length := by
  rw [tidal_elevation_series_eq_meters, List.length_map, seriesMeters_length lib hS]

/-- The data grid and the minor grid of a run agree rowwise in length. -/
theorem dataOf_minor_lengths (lib : ExtLib) (hS : ShapeContract lib) (self : Tide)
    (lons lats : List ℚ) (consts : Option (List String)) (tt : List ℚ) :
    List.Forall₂ (fun x m => m.length = x.length)
      (Tide.dataOf lib self lons lats consts tt) (minorGrid lib self lons lats tt) := by
  unfold Tide.dataOf minorGrid
  dsimp only
  split
  · apply forall_two_map_same
    intro i _
    rw [hS.infer_minor_at_len, tmap_length lib hS]
  · apply forall_two_map_two
    · rw [tts_length lib hS, hS.infer_minor_series_len]
    · intro a b
      rfl

/-- A no-subset run's data grid is the subset run's grid plus 100 times
the minor grid, elementwise, whenever the subset culling keeps the full
constituent list. -/
theorem dataOf_minor_split (lib : ExtLib) (hS : ShapeContract lib) (self : Tide)
    (lons lats : List ℚ) (L : List String) (tt : List ℚ)
    (hcull : culledC (Tide.fieldsOf lib self) (some L) = Tide.fieldsOf lib self) :
    Tide.dataOf lib self lons lats none tt
      = List.zipWith (List.zipWith (fun a b => a + 100 * b))
          (Tide.dataOf lib self lons lats (some L) tt)
          (minorGrid lib self lons lats tt) := by
  unfold Tide.dataOf minorGrid
  dsimp only
  rw [hcull]
  split
  · rw [List.zipWith_map, List.zipWith_same]
    apply List.map_congr_left
    intro i _
    show Tide.tidal_elevation_map lib _ _ _ _ _ none = _
    unfold Tide.tidal_elevation_map
    dsimp only
    exact row_identity _ _
  · show (Tide.tidal_elevation_time_series lib tt _ _ _ _ none).map _ = _
    unfold Tide.tidal_elevation_time_series
    dsimp only
    rw [List.map_map, List.map_map, List.map_zipWith, List.zipWith_map]
    have hfun : (fun a b : ℚ => ((fun v => [v]) ∘ fun v => v * 100) (a + b))
        = (fun a b : ℚ =>
            List.zipWith (fun a b => a + 100 * b) (((fun v => [v]) ∘ fun v => v * 100) a) [b]) := by
      funext a b
      simp only [Function.comp_apply, List.zipWith_cons_cons, List.zipWith_nil_right,
        List.cons.injEq, and_true]
      ring
    rw [hfun]
    rfl

/-- C3: the minor-constituent inferred correction is included exactly
when `constituents` is omitted: writing M for the minor-correction grid
(in metres), the `consts=None` run's data equals the explicit-subset
run's data plus 100·M elementwise, and the two results' data coincide
precisely when M is numerically zero — for any explicit constituent list
whose culling retains the full model constituent list, so that the two
calls differ only in the minor-correction step. -/
theorem minor_correction_iff_consts_none (lib : ExtLib) (hS : ShapeContract lib)
    (self : Tide) (lons lats : List ℚ) (datetimes : List DateTime) (L : List String)
    (hcull : culledC (Tide.fieldsOf lib self) (some L) = Tide.fieldsOf lib self) :
    (Tide.tidal_elevation lib self lons lats datetimes none).result.data
      = List.zipWith (List.zipWith (fun a b => a + 100 * b))
          (Tide.tidal_elevation lib self lons lats datetimes (some L)).result.data
          (minorGrid lib self lons lats (tideTimeOf lib datetimes)) ∧
    ((Tide.tidal_elevation lib self lons lats datetimes none).result.data
        = (Tide.tidal_elevation lib self lons lats datetimes (some L)).result.data
      ↔ ∀ row ∈ minorGrid lib self lons lats (tideTimeOf lib datetimes),
          ∀ v ∈ row, v = 0) := by
  have hsplit := dataOf_minor_split lib hS self lons lats L (tideTimeOf lib datetimes) hcull
  have hlens := dataOf_minor_lengths lib hS self lons lats (some L) (tideTimeOf lib datetimes)
  constructor
  · exact hsplit
  · show Tide.dataOf lib self lons lats none (tideTimeOf lib datetimes)
        = Tide.dataOf lib self lons lats (some L) (tideTimeOf lib datetimes) ↔ _
    rw [hsplit]
    exact grid_cancel _ _ hlens

/-- Witness for C3: an explicit list naming all four model constituents,
so its culling keeps the full constituent list. -/
theorem minor_correction_iff_consts_none_witness :
    (culledC (Tide.fieldsOf libW tideW) (some ["m2", "s2", "k1", "o1"])
        = Tide.fieldsOf libW tideW) ∧
    (Tide.tidal_elevation libW tideW [0] [0] [dtW] none).result.data
      = List.zipWith (List.zipWith (fun a b => a + 100 * b))
          (Tide.tidal_elevation libW tideW [0] [0] [dtW]
            (some ["m2", "s2", "k1", "o1"])).result.data
          (minorGrid libW tideW [0] [0] (tideTimeOf libW [dtW])) :=
  ⟨by decide,
   (minor_correction_iff_consts_none libW libW_shapes tideW [0] [0] [dtW]
     ["m2", "s2", "k1", "o1"] (by decide)).1⟩

/-- Under the shape contract the data grid has one row per tide time. -/
theorem dataOf_length (lib : ExtLib) (hS : ShapeContract lib) (self : Tide)
    (lons lats : List ℚ) (consts : Option (List String)) (tt : List ℚ) :
    (Tide.dataOf lib self lons lats consts tt).length = tt.length := by
  unfold Tide.dataOf
  dsimp only
  split
  · rw [List.length_map, List.length_range]
  · rw [List.length_map, tts_length lib hS]

/-- Under the shape contract every row of the data grid has one value
per requested location, for non-empty location lists. -/
theorem dataOf_row_length (lib : ExtLib) (hS : ShapeContract lib) (self : Tide)
    (lons lats : List ℚ) (consts : Option (List String)) (tt : List ℚ)
    (hpos : 0 < lons.length) :
    ∀ row ∈ Tide.dataOf lib self lons lats consts tt, row.length = lons.length := by
  intro row hrow
  unfold Tide.dataOf at hrow
  revert hrow
  split
  · intro hrow
    obtain ⟨i, _, hi⟩ := List.mem_map.mp hrow
    rw [← hi, tmap_length lib hS, hcOf_length lib hS]
  · intro hrow
    obtain ⟨v, _, hv⟩ := List.mem_map.mp hrow
    have hone : lons.length = 1 := by omega
    rw [← hv, hone]
    rfl

/-- On the success domain (equal-length, non-empty location lists,
delegated routines observing their shape contract) the error-aware run
raises neither delegated error and returns exactly the total model's
trace and result: the two embeddings of `tidal_elevation` coincide
wherever the program succeeds. -/
theorem tidal_elevationE_agrees (lib : ExtLib) (hS : ShapeContract lib) (self : Tide)
    (lons lats : List ℚ) (datetimes : List DateTime) (consts : Option (List String))
    (hlen : lons.length = lats.length) (hpos : 0 < lons.length) :
    Tide.tidal_elevationE lib self lons lats datetimes consts
      = ((Tide.tidal_elevation lib self lons lats datetimes consts).trace,
         Except.ok (Tide.tidal_elevation lib self lons lats datetimes consts).result) := by
  have h1 : (Tide.tidal_elevation lib self lons lats datetimes consts).result.data.length
      = (Tide.tidal_elevation lib self lons lats datetimes consts).result.t.length := by
    show (Tide.dataOf lib self lons lats consts (tideTimeOf lib datetimes)).length
      = datetimes.length
    rw [dataOf_length lib hS]
    exact List.length_map _ _
  have hll : (Tide.tidal_elevation lib self lons lats datetimes consts).result.lat_lon.length
      = lons.length := by
    show (List.zipWith (fun lat lon => LatLon.mk lat lon) lats lons).length = lons.length
    rw [List.length_zipWith, hlen, min_self]
  have h2 : ∀ row ∈ (Tide.tidal_elevation lib self lons lats datetimes consts).result.data,
      row.length
        = (Tide.tidal_elevation lib self lons lats datetimes consts).result.lat_lon.length := by
    intro row hrow
    rw [hll]
    exact dataOf_row_length lib hS self lons lats consts (tideTimeOf lib datetimes) hpos row hrow
  unfold Tide.tidal_elevationE
  rw [if_neg (fun hne => hne hlen)]
  dsimp only
  have hcond : ((Tide.tidal_elevation lib self lons lats datetimes consts).result.data.length
        == (Tide.tidal_elevation lib self lons lats datetimes consts).result.t.length
      && (Tide.tidal_elevation lib self lons lats datetimes consts).result.data.all
          (fun row => row.length
            == (Tide.tidal_elevation lib self lons lats datetimes consts).result.lat_lon.length))
      = true := by
    rw [Bool.and_eq_true, beq_iff_eq, List.all_eq_true]
    refine ⟨h1, fun row hrow => ?_⟩
    rw [beq_iff_eq]
    exact h2 row hrow
  rw [if_pos hcond]
